import Mathlib

set_option maxRecDepth 8000

/-!
Verification development for the repository consisting of the single tutorial
notebook `notebooks/Visualisation in 3D.ipynb`.

The notebook is a straight-line Python script that sequences calls into the
external OptimUS library (and `numpy`).  We embed it shallowly: the external
library is an opaque oracle (`Lib`) mapping a call name, the argument values
and the current global configuration to an optional result (`none` models the
call raising an exception).  The notebook itself is transcribed cell by cell
into `runNotebook`, which threads an environment of variable bindings, the
global state the notebook mutates (`sys.path`, the warnings filter, and
`optimus.global_parameters.postprocessing.quadrature_order`), and a trace of
the events the script performs, in textual order.

Numeric literals of the notebook are embedded as rationals (the notebook's own
arithmetic is exact: a division by the literal 2 and an affine map of a random
array; no floating-point-specific behaviour is relied upon by any claim).
-/

namespace Optimus

/-- Values manipulated by the notebook: numbers, strings, numeric tuples
(all tuples appearing in the notebook are tuples of numbers), two-element
Python lists of values (the only list of objects the notebook builds is
`[geometry1, geometry2]`), two-dimensional numeric arrays (numpy), and opaque
library objects. -/
inductive Val where
  | num (q : ℚ)
  | str (s : String)
  | tup (qs : List ℚ)
  | listPair (a b : Val)
  | arr (rows : List (List ℚ))
  | obj (tag : String) (id : Nat)
  deriving Repr, DecidableEq

/-- The global, library-level state that statements of the notebook mutate:
`sys.path`, the global warnings filter, and the post-processing quadrature
order of `optimus.global_parameters`.  Initially nothing has been appended,
no filter installed, and the quadrature order has its library default
(modelled as `none`). -/
structure Globals where
  sysPath : List String
  warnFilters : List (String × String)
  quadratureOrder : Option ℚ
  deriving Repr, DecidableEq

/-- One event of the notebook's execution, in textual order: a module import,
a `sys.path.append`, a `warnings.simplefilter`, the assignment to the global
quadrature order, or an external library call.  A call records the function
name, the receiver variable for method calls, the variable the result is
assigned to (if any), the argument values (for a method call the receiver's
value is the head), and the returned value. -/
inductive Event where
  | importMod (m : String)
  | pathAppend (dir : String)
  | warnFilter (action category : String)
  | setQuadratureOrder (q : ℚ)
  | call (fn : String) (recv bound : Option String) (args : List Val) (result : Val)
  deriving Repr, DecidableEq

/-- The running state of the script: variable bindings in binding order, the
global state, and the trace of events performed so far. -/
structure St where
  env : List (String × Val)
  globals : Globals
  trace : List Event
  deriving Repr, DecidableEq

/-- Outcome of running the script: it either runs to completion or an
unhandled exception terminates it at some point (`raised`), with the state
reached up to that point. -/
inductive Outcome where
  | ok (st : St)
  | raised (st : St)
  deriving Repr, DecidableEq

/-- The state carried by an outcome. -/
def Outcome.state : Outcome → St
  | .ok st => st
  | .raised st => st

/-- Whether the run completed without an exception. -/
def Outcome.isOk : Outcome → Bool
  | .ok _ => true
  | .raised _ => false

/-- The external library (OptimUS and numpy), as an opaque oracle: a call name,
the argument values (for a method call, the receiver's value first) and the
current global configuration determine an optional result; `none` models the
call raising an exception.  Per the spec, the library is an opaque collaborator
and the only shared state visible to the notebook is `Globals`. -/
def Lib := String → List Val → Globals → Option Val

/-- Bind a variable (ordinary sequential assignment). -/
def St.bindVar (st : St) (x : String) (v : Val) : St :=
  { st with env := st.env ++ [(x, v)] }

/-- Append an event to the trace. -/
def St.emit (st : St) (e : Event) : St :=
  { st with trace := st.trace ++ [e] }

/-- Look up a variable in the final environment (first binding wins; the
notebook never rebinds a name). -/
def lookupVar (st : St) (x : String) : Option Val :=
  (st.env.find? (fun p => p.1 == x)).map (fun p => p.2)

/-- Perform one external library call: if the library raises, the exception
propagates unhandled and the script terminates; otherwise the event is
recorded and execution continues with the result. -/
def callStep (lib : Lib) (fn : String) (recv bound : Option String)
    (args : List Val) (st : St) (k : Val → St → Outcome) : Outcome :=
  match lib fn args st.globals with
  | none => .raised st
  | some v => k v (st.emit (.call fn recv bound args v))

/-- Perform one notebook-owned fallible operation (the arithmetic the notebook
applies to a library result); failure models a Python `TypeError`. -/
def pureStep (r : Option Val) (st : St) (k : Val → St → Outcome) : Outcome :=
  match r with
  | none => .raised st
  | some v => k v st

/-- Scalar multiplication as Python/numpy applies it to the notebook's values:
defined on numbers and elementwise on arrays, a `TypeError` otherwise. -/
def vMulScalar : Val → ℚ → Option Val
  | .num q, c => some (.num (q * c))
  | .arr rows, c => some (.arr (rows.map (fun r => r.map (fun x => x * c))))
  | _, _ => none

/-- Scalar subtraction as Python/numpy applies it to the notebook's values:
defined on numbers and elementwise on arrays, a `TypeError` otherwise. -/
def vSubScalar : Val → ℚ → Option Val
  | .num q, c => some (.num (q - c))
  | .arr rows, c => some (.arr (rows.map (fun r => r.map (fun x => x - c))))
  | _, _ => none

/-- Shallow embedding of the notebook `Visualisation in 3D.ipynb`, transcribed
cell by cell in textual order.  Comments quote the notebook's code lines.
The `%%time` cell magic has no semantic content and is not modelled. -/
def runNotebook (lib : Lib) : Outcome :=
  -- import sys; sys.path.append('..')
  let st : St := ⟨[], ⟨[], [], none⟩, []⟩
  let st := st.emit (.importMod ("sys"))
  let st := { st with globals := { st.globals with sysPath := st.globals.sysPath ++ [".."] } }
  let st := st.emit (.pathAppend (".."))
  -- import optimus
  let st := st.emit (.importMod ("optimus"))
  -- frequency = 100e3 ... velocity = 0.04
  let frequency : ℚ := 100e3
  let radius_of_curvature : ℚ := 64e-3
  let radius : ℚ := radius_of_curvature / 2
  let location : Val := .tup [0, 0, -radius_of_curvature]
  let velocity : ℚ := 0.04
  let st := st.bindVar ("frequency") (.num frequency)
  let st := st.bindVar ("radius_of_curvature") (.num radius_of_curvature)
  let st := st.bindVar ("radius") (.num radius)
  let st := st.bindVar ("location") location
  let st := st.bindVar ("velocity") (.num velocity)
  -- source = optimus.source.create_bowl(frequency, outer_radius=radius,
  --   radius_of_curvature=radius_of_curvature, location=location,
  --   source_axis=(0, 0, 1), velocity=velocity)
  callStep lib ("optimus.source.create_bowl") none (some ("source"))
      [.num frequency, .num radius, .num radius_of_curvature, location,
        .tup [0, 0, 1], .num velocity] st fun vsource st =>
  let st := st.bindVar ("source") vsource
  -- material_ext = optimus.material.load_material("water")
  callStep lib ("optimus.material.load_material") none (some ("material_ext"))
      [.str ("water")] st fun vmatE st =>
  let st := st.bindVar ("material_ext") vmatE
  -- material_int = optimus.material.load_material("bone (cortical)")
  callStep lib ("optimus.material.load_material") none (some ("material_int"))
      [.str ("bone (cortical)")] st fun vmatI st =>
  let st := st.bindVar ("material_int") vmatI
  -- geometry1 = optimus.geometry.load.import_grid("Data/ribcage4-h-4.msh", label="ribcage4")
  callStep lib ("optimus.geometry.load.import_grid") none (some ("geometry1"))
      [.str ("Data/ribcage4-h-4.msh"), .str ("ribcage4")] st fun vg1 st =>
  let st := st.bindVar ("geometry1") vg1
  -- geometry2 = optimus.geometry.load.import_grid("Data/ribcage3-h-1.msh", label="ribcage3")
  callStep lib ("optimus.geometry.load.import_grid") none (some ("geometry2"))
      [.str ("Data/ribcage3-h-1.msh"), .str ("ribcage3")] st fun vg2 st =>
  let st := st.bindVar ("geometry2") vg2
  -- import warnings
  let st := st.emit (.importMod ("warnings"))
  -- warnings.simplefilter("ignore", UserWarning)
  let st := { st with globals :=
    { st.globals with warnFilters := st.globals.warnFilters ++ [(("ignore"), ("UserWarning"))] } }
  let st := st.emit (.warnFilter ("ignore") ("UserWarning"))
  -- grids = optimus.postprocess.Visualise3DGrid([geometry1, geometry2])
  callStep lib ("optimus.postprocess.Visualise3DGrid") none (some ("grids"))
      [.listPair vg1 vg2] st fun vgrids st =>
  let st := st.bindVar ("grids") vgrids
  -- grids.create_computational_grid()
  callStep lib ("create_computational_grid") (some ("grids")) none [vgrids] st fun _ st =>
  -- grids.display_field()
  callStep lib ("display_field") (some ("grids")) none [vgrids] st fun _ st =>
  -- geometry = optimus.utils.mesh.scale_mesh(geometry1, 1e-3)
  callStep lib ("optimus.utils.mesh.scale_mesh") none (some ("geometry"))
      [vg1, .num 1e-3] st fun vgeom st =>
  let st := st.bindVar ("geometry") vgeom
  -- model = optimus.model.create_default_model(source, geometry, material_ext, material_int)
  callStep lib ("optimus.model.create_default_model") none (some ("model"))
      [vsource, vgeom, vmatE, vmatI] st fun vmodel st =>
  let st := st.bindVar ("model") vmodel
  -- model.solve()   (return value not bound)
  callStep lib ("solve") (some ("model")) none [vmodel] st fun _ st =>
  -- optimus.global_parameters.postprocessing.quadrature_order = 20
  let st := { st with globals := { st.globals with quadratureOrder := some 20 } }
  let st := st.emit (.setQuadratureOrder 20)
  -- postprocess_plane = optimus.postprocess.VisualisePlane(model)
  callStep lib ("optimus.postprocess.VisualisePlane") none (some ("postprocess_plane"))
      [vmodel] st fun vplane st =>
  let st := st.bindVar ("postprocess_plane") vplane
  -- postprocess_plane.create_computational_grid(resolution=(141, 241),
  --   bounding_box=(-90e-3, 90e-3, -90e-3, 90e-3), plane_axes=(1, 2))
  callStep lib ("create_computational_grid") (some ("postprocess_plane")) none
      [vplane, .tup [141, 241], .tup [-(90e-3), 90e-3, -(90e-3), 90e-3], .tup [1, 2]]
      st fun _ st =>
  -- postprocess_plane.compute_fields()
  callStep lib ("compute_fields") (some ("postprocess_plane")) none [vplane] st fun _ st =>
  -- postprocess_3D = optimus.postprocess.Visualise3DField(model)
  callStep lib ("optimus.postprocess.Visualise3DField") none (some ("postprocess_3D"))
      [vmodel] st fun v3d st =>
  let st := st.bindVar ("postprocess_3D") v3d
  -- postprocess_3D.create_computational_grid()
  callStep lib ("create_computational_grid") (some ("postprocess_3D")) none [v3d] st fun _ st =>
  -- postprocess_3D.add_VisualisePlane(postprocess_plane)
  callStep lib ("add_VisualisePlane") (some ("postprocess_3D")) none [v3d, vplane] st fun _ st =>
  -- postprocess_3D.compute_fields()
  callStep lib ("compute_fields") (some ("postprocess_3D")) none [v3d] st fun _ st =>
  -- postprocess_3D.display_field()
  callStep lib ("display_field") (some ("postprocess_3D")) none [v3d] st fun _ st =>
  -- import numpy as np
  let st := st.emit (.importMod ("numpy"))
  -- n = 500
  let n : ℚ := 500
  let st := st.bindVar ("n") (.num n)
  -- pointsarray = np.random.rand(3,n) * 0.18 - 0.09
  callStep lib ("numpy.random.rand") none none [.num 3, .num n] st fun vrand st =>
  pureStep ((vMulScalar vrand 0.18).bind (fun w => vSubScalar w 0.09)) st fun vpoints st =>
  let st := st.bindVar ("pointsarray") vpoints
  -- points = optimus.postprocess.VisualiseCloudPoints(model)
  callStep lib ("optimus.postprocess.VisualiseCloudPoints") none (some ("points"))
      [vmodel] st fun vcloud st =>
  let st := st.bindVar ("points") vcloud
  -- points.create_computational_grid(pointsarray)
  callStep lib ("create_computational_grid") (some ("points")) none [vcloud, vpoints] st fun _ st =>
  -- points.compute_fields()
  callStep lib ("compute_fields") (some ("points")) none [vcloud] st fun _ st =>
  -- points.display_field(size = 0.009)
  callStep lib ("display_field") (some ("points")) none [vcloud, .num 0.009] st fun _ st =>
  .ok st

/-- Name under which the assignment to the global quadrature order is
recorded. -/
def quadSigName : String := "optimus.global_parameters.postprocessing.quadrature_order"

/-- Globals after `sys.path.append("..")`, before `warnings.simplefilter`. -/
def gImported : Globals := ⟨[".."], [], none⟩

/-- Globals after `warnings.simplefilter("ignore", UserWarning)`, before the
quadrature-order assignment. -/
def gWarn : Globals := ⟨[".."], [(("ignore"), ("UserWarning"))], none⟩

/-- Globals after `optimus.global_parameters.postprocessing.quadrature_order = 20`. -/
def gPost : Globals := ⟨[".."], [(("ignore"), ("UserWarning"))], some 20⟩

/-- The statically visible signature of an event: which operation it is, the
receiver variable for method calls, and the variable the result is bound to.
Argument and result values are discarded. -/
structure CallSig where
  fn : String
  recv : Option String
  bound : Option String
  deriving Repr, DecidableEq

/-- Signature of an event. -/
def eventSig : Event → CallSig
  | .importMod m => ⟨"import " ++ m, none, none⟩
  | .pathAppend _ => ⟨"sys.path.append", none, none⟩
  | .warnFilter _ _ => ⟨"warnings.simplefilter", none, none⟩
  | .setQuadratureOrder _ => ⟨quadSigName, none, none⟩
  | .call fn recv bound _ _ => ⟨fn, recv, bound⟩

/-- The fixed textual sequence of the notebook's operations (event
signatures), in cell order. -/
def notebookSigs : List CallSig := [
  ⟨"import sys", none, none⟩,
  ⟨"sys.path.append", none, none⟩,
  ⟨"import optimus", none, none⟩,
  ⟨"optimus.source.create_bowl", none, some ("source")⟩,
  ⟨"optimus.material.load_material", none, some ("material_ext")⟩,
  ⟨"optimus.material.load_material", none, some ("material_int")⟩,
  ⟨"optimus.geometry.load.import_grid", none, some ("geometry1")⟩,
  ⟨"optimus.geometry.load.import_grid", none, some ("geometry2")⟩,
  ⟨"import warnings", none, none⟩,
  ⟨"warnings.simplefilter", none, none⟩,
  ⟨"optimus.postprocess.Visualise3DGrid", none, some ("grids")⟩,
  ⟨"create_computational_grid", some ("grids"), none⟩,
  ⟨"display_field", some ("grids"), none⟩,
  ⟨"optimus.utils.mesh.scale_mesh", none, some ("geometry")⟩,
  ⟨"optimus.model.create_default_model", none, some ("model")⟩,
  ⟨"solve", some ("model"), none⟩,
  ⟨quadSigName, none, none⟩,
  ⟨"optimus.postprocess.VisualisePlane", none, some ("postprocess_plane")⟩,
  ⟨"create_computational_grid", some ("postprocess_plane"), none⟩,
  ⟨"compute_fields", some ("postprocess_plane"), none⟩,
  ⟨"optimus.postprocess.Visualise3DField", none, some ("postprocess_3D")⟩,
  ⟨"create_computational_grid", some ("postprocess_3D"), none⟩,
  ⟨"add_VisualisePlane", some ("postprocess_3D"), none⟩,
  ⟨"compute_fields", some ("postprocess_3D"), none⟩,
  ⟨"display_field", some ("postprocess_3D"), none⟩,
  ⟨"import numpy", none, none⟩,
  ⟨"numpy.random.rand", none, none⟩,
  ⟨"optimus.postprocess.VisualiseCloudPoints", none, some ("points")⟩,
  ⟨"create_computational_grid", some ("points"), none⟩,
  ⟨"compute_fields", some ("points"), none⟩,
  ⟨"display_field", some ("points"), none⟩]

/-- The final state of a completed run of the notebook, as a function of the
values returned by the 24 external library calls (in textual order) and the
value `vpoints` the notebook computes for `pointsarray`. -/
def finalState (vsource vmatE vmatI vg1 vg2 vgrids rGrid1 rGrid2 vgeom vmodel
    rSolve vplane rP1 rP2 v3d r3d1 r3d2 r3d3 r3d4 vrand vpoints vcloud
    rC1 rC2 rC3 : Val) : St where
  env := [("frequency", .num 100e3), ("radius_of_curvature", .num 64e-3),
    ("radius", .num (64e-3 / 2)), ("location", .tup [0, 0, -(64e-3)]),
    ("velocity", .num 0.04), ("source", vsource), ("material_ext", vmatE),
    ("material_int", vmatI), ("geometry1", vg1), ("geometry2", vg2),
    ("grids", vgrids), ("geometry", vgeom), ("model", vmodel),
    ("postprocess_plane", vplane), ("postprocess_3D", v3d), ("n", .num 500),
    ("pointsarray", vpoints), ("points", vcloud)]
  globals := gPost
  trace := [
    .importMod ("sys"),
    .pathAppend (".."),
    .importMod ("optimus"),
    .call ("optimus.source.create_bowl") none (some ("source"))
      [.num 100e3, .num (64e-3 / 2), .num 64e-3, .tup [0, 0, -(64e-3)],
        .tup [0, 0, 1], .num 0.04] vsource,
    .call ("optimus.material.load_material") none (some ("material_ext"))
      [.str ("water")] vmatE,
    .call ("optimus.material.load_material") none (some ("material_int"))
      [.str ("bone (cortical)")] vmatI,
    .call ("optimus.geometry.load.import_grid") none (some ("geometry1"))
      [.str ("Data/ribcage4-h-4.msh"), .str ("ribcage4")] vg1,
    .call ("optimus.geometry.load.import_grid") none (some ("geometry2"))
      [.str ("Data/ribcage3-h-1.msh"), .str ("ribcage3")] vg2,
    .importMod ("warnings"),
    .warnFilter ("ignore") ("UserWarning"),
    .call ("optimus.postprocess.Visualise3DGrid") none (some ("grids"))
      [.listPair vg1 vg2] vgrids,
    .call ("create_computational_grid") (some ("grids")) none [vgrids] rGrid1,
    .call ("display_field") (some ("grids")) none [vgrids] rGrid2,
    .call ("optimus.utils.mesh.scale_mesh") none (some ("geometry"))
      [vg1, .num 1e-3] vgeom,
    .call ("optimus.model.create_default_model") none (some ("model"))
      [vsource, vgeom, vmatE, vmatI] vmodel,
    .call ("solve") (some ("model")) none [vmodel] rSolve,
    .setQuadratureOrder 20,
    .call ("optimus.postprocess.VisualisePlane") none (some ("postprocess_plane"))
      [vmodel] vplane,
    .call ("create_computational_grid") (some ("postprocess_plane")) none
      [vplane, .tup [141, 241], .tup [-(90e-3), 90e-3, -(90e-3), 90e-3], .tup [1, 2]] rP1,
    .call ("compute_fields") (some ("postprocess_plane")) none [vplane] rP2,
    .call ("optimus.postprocess.Visualise3DField") none (some ("postprocess_3D"))
      [vmodel] v3d,
    .call ("create_computational_grid") (some ("postprocess_3D")) none [v3d] r3d1,
    .call ("add_VisualisePlane") (some ("postprocess_3D")) none [v3d, vplane] r3d2,
    .call ("compute_fields") (some ("postprocess_3D")) none [v3d] r3d3,
    .call ("display_field") (some ("postprocess_3D")) none [v3d] r3d4,
    .importMod ("numpy"),
    .call ("numpy.random.rand") none none [.num 3, .num 500] vrand,
    .call ("optimus.postprocess.VisualiseCloudPoints") none (some ("points"))
      [vmodel] vcloud,
    .call ("create_computational_grid") (some ("points")) none [vcloud, vpoints] rC1,
    .call ("compute_fields") (some ("points")) none [vcloud] rC2,
    .call ("display_field") (some ("points")) none [vcloud, .num 0.009] rC3]

/-- A sample total library used for concrete evaluations: every call returns
an opaque string handle, except `numpy.random.rand`, which returns a number so
that the notebook's arithmetic on it is defined. -/
def libC : Lib := fun fn _ _ =>
  if fn = "numpy.random.rand" then some (.num 0) else some (.str fn)

/-- Whether an event is a `warnings.simplefilter` installation. -/
def Event.isWarnFilter : Event → Bool
  | .warnFilter _ _ => true
  | _ => false

/-- Whether an event mutates global (library-level) state rather than calling
the library: `sys.path.append`, `warnings.simplefilter`, or the
quadrature-order assignment. -/
def Event.isGlobalMutation : Event → Bool
  | .pathAppend _ => true
  | .warnFilter _ _ => true
  | .setQuadratureOrder _ => true
  | _ => false

/-- The call name of a call event (empty for non-call events). -/
def Event.fnName : Event → String
  | .call fn _ _ _ _ => fn
  | _ => ""

/-- The result recorded in a call event. -/
def Event.resultVal : Event → Val
  | .call _ _ _ _ r => r
  | _ => .num 0

/-- The results of the `compute_fields` calls of a trace, in order. -/
def computeFieldsResults (tr : List Event) : List Val :=
  (tr.filter (fun e => Event.fnName e == "compute_fields")).map Event.resultVal

/-- A library that raises at `solve` (and otherwise behaves like `libC`),
exhibiting a raising run. -/
def libR : Lib := fun fn _ _ =>
  if fn = "solve" then none
  else if fn = "numpy.random.rand" then some (.num 0) else some (.str fn)

/-- Prefix test on character lists (kernel-reducible). -/
def listStarts : List Char → List Char → Bool
  | [], _ => true
  | _ :: _, [] => false
  | c :: cs, d :: ds => c == d && listStarts cs ds

/-- Whether the string `s` starts with `p`. -/
def strStarts (p s : String) : Bool := listStarts p.toList s.toList

/-- The variables the notebook binds to `optimus.postprocess` constructions. -/
def postprocessVars : List String :=
  ["grids", "postprocess_plane", "postprocess_3D", "points"]

/-- Whether a signature is a post-processing operation: the construction of an
`optimus.postprocess` object, or a method call whose receiver variable holds
such an object. -/
def isPostprocessSig (s : CallSig) : Bool :=
  strStarts ("optimus.postprocess.") s.fn ||
    (match s.recv with
      | some x => postprocessVars.contains x
      | none => false)

/-- The number of method calls named `m` on receiver variable `x` in a
signature sequence. -/
def methodCount (sigs : List CallSig) (m x : String) : Nat :=
  (sigs.filter (fun t => t.fn == m && t.recv == some x)).length

/-- The library `lib` with the return value of the `solve` method replaced by
`v`; its raising behaviour and every other call are unchanged. -/
def solveOverride (lib : Lib) (v : Val) : Lib := fun fn args g =>
  if fn = "solve" then (lib fn args g).map (fun _ => v) else lib fn args g

/-- Erase the recorded result of a `solve` call event. -/
def maskSolveResult : Event → Event
  | .call fn recv bound args r =>
      if fn = "solve" then .call fn recv bound args (.num 0)
      else .call fn recv bound args r
  | e => e

/-- The library `lib` with the result of importing the second mesh
(`"Data/ribcage3-h-1.msh"`, label `ribcage3`) replaced by `w`; its raising
behaviour and every other call are unchanged.  A run against it is a run that
differs from the original only in `geometry2`. -/
def geometry2Override (lib : Lib) (w : Val) : Lib := fun fn args g =>
  if fn = "optimus.geometry.load.import_grid" ∧
      args = [.str ("Data/ribcage3-h-1.msh"), .str ("ribcage3")] then
    (lib fn args g).map (fun _ => w)
  else lib fn args g

/-- A total library whose `numpy.random.rand` returns the constant 3 × 500
array of halves (used to witness `c10_pointsarray`). -/
def libW : Lib := fun fn _ _ =>
  if fn = "numpy.random.rand" then
    some (.arr (List.replicate 3 (List.replicate 500 (1/2))))
  else some (.str fn)

/-- Python expressions occurring in the notebook, transcribed from the
source: literals, variable references, unary minus, division, multiplication,
subtraction, fixed-arity tuples, the two-element list, the result of a
library call bound by an assignment (`callResult`), and `np.random.rand(a,b)`
(`randCall`), the only call nested inside an arithmetic expression.  Negative
numeric literals such as `-90e-3` are transcribed as negative rationals. -/
inductive PyExpr where
  | numLit (q : ℚ)
  | strLit (s : String)
  | var (x : String)
  | neg (e : PyExpr)
  | div (a b : PyExpr)
  | mul (a b : PyExpr)
  | sub (a b : PyExpr)
  | tup2 (a b : PyExpr)
  | tup3 (a b c : PyExpr)
  | tup4 (a b c d : PyExpr)
  | list2 (a b : PyExpr)
  | callResult (fn : String)
  | randCall (a b : PyExpr)
  deriving Repr, DecidableEq

/-- Whether the expression's value is computed by the notebook's own
arithmetic or array construction: it applies unary minus, division,
multiplication or subtraction (directly or inside a tuple/list), or
references a variable of `xs` (the variables already known to hold
notebook-computed values). -/
def computedIn (xs : List String) : PyExpr → Bool
  | .numLit _ => false
  | .strLit _ => false
  | .var x => xs.contains x
  | .neg _ => true
  | .div _ _ => true
  | .mul _ _ => true
  | .sub _ _ => true
  | .tup2 a b => computedIn xs a || computedIn xs b
  | .tup3 a b c => computedIn xs a || computedIn xs b || computedIn xs c
  | .tup4 a b c d =>
      computedIn xs a || computedIn xs b || computedIn xs c || computedIn xs d
  | .list2 a b => computedIn xs a || computedIn xs b
  | .callResult _ => false
  | .randCall _ _ => false

/-- Whether the expression is a literal, a variable reference, or a
tuple/list of such (no notebook-owned computation at all). -/
def isLitOrRef : PyExpr → Bool
  | .numLit _ => true
  | .strLit _ => true
  | .var _ => true
  | .tup2 a b => isLitOrRef a && isLitOrRef b
  | .tup3 a b c => isLitOrRef a && isLitOrRef b && isLitOrRef c
  | .tup4 a b c d => isLitOrRef a && isLitOrRef b && isLitOrRef c && isLitOrRef d
  | .list2 a b => isLitOrRef a && isLitOrRef b
  | _ => false

/-- The notebook's assignments, in source order, with their right-hand
sides.  Assignments whose right-hand side is a single library call are
recorded as `callResult` of the called function (their arguments appear in
`notebookCallArgs`). -/
def notebookAssignExprs : List (String × PyExpr) := [
  (("frequency"), .numLit 100e3),
  (("radius_of_curvature"), .numLit 64e-3),
  (("radius"), .div (.var ("radius_of_curvature")) (.numLit 2)),
  (("location"), .tup3 (.numLit 0) (.numLit 0) (.neg (.var ("radius_of_curvature")))),
  (("velocity"), .numLit 0.04),
  (("source"), .callResult ("optimus.source.create_bowl")),
  (("material_ext"), .callResult ("optimus.material.load_material")),
  (("material_int"), .callResult ("optimus.material.load_material")),
  (("geometry1"), .callResult ("optimus.geometry.load.import_grid")),
  (("geometry2"), .callResult ("optimus.geometry.load.import_grid")),
  (("grids"), .callResult ("optimus.postprocess.Visualise3DGrid")),
  (("geometry"), .callResult ("optimus.utils.mesh.scale_mesh")),
  (("model"), .callResult ("optimus.model.create_default_model")),
  (("postprocess_plane"), .callResult ("optimus.postprocess.VisualisePlane")),
  (("postprocess_3D"), .callResult ("optimus.postprocess.Visualise3DField")),
  (("n"), .numLit 500),
  (("pointsarray"),
    .sub (.mul (.randCall (.numLit 3) (.var ("n"))) (.numLit 0.18)) (.numLit 0.09)),
  (("points"), .callResult ("optimus.postprocess.VisualiseCloudPoints"))]

/-- The variables whose values the notebook computes itself: scanning the
assignments in order, a variable is computed when its right-hand side is. -/
def computedVars : List String :=
  notebookAssignExprs.foldl
    (fun acc p => if computedIn acc p.2 then acc ++ [p.1] else acc) []

/-- Every call the notebook makes (library and stdlib), in source order, with
the argument expressions it passes, transcribed from the source.  Method
calls are qualified by their receiver variable. -/
def notebookCallArgs : List (String × List PyExpr) := [
  (("sys.path.append"), [.strLit ("..")]),
  (("optimus.source.create_bowl"),
    [.var ("frequency"), .var ("radius"), .var ("radius_of_curvature"),
      .var ("location"), .tup3 (.numLit 0) (.numLit 0) (.numLit 1), .var ("velocity")]),
  (("optimus.material.load_material"), [.strLit ("water")]),
  (("optimus.material.load_material"), [.strLit ("bone (cortical)")]),
  (("optimus.geometry.load.import_grid"),
    [.strLit ("Data/ribcage4-h-4.msh"), .strLit ("ribcage4")]),
  (("optimus.geometry.load.import_grid"),
    [.strLit ("Data/ribcage3-h-1.msh"), .strLit ("ribcage3")]),
  (("warnings.simplefilter"), [.strLit ("ignore"), .var ("UserWarning")]),
  (("optimus.postprocess.Visualise3DGrid"),
    [.list2 (.var ("geometry1")) (.var ("geometry2"))]),
  (("grids.create_computational_grid"), []),
  (("grids.display_field"), []),
  (("optimus.utils.mesh.scale_mesh"), [.var ("geometry1"), .numLit 1e-3]),
  (("optimus.model.create_default_model"),
    [.var ("source"), .var ("geometry"), .var ("material_ext"), .var ("material_int")]),
  (("model.solve"), []),
  (("optimus.postprocess.VisualisePlane"), [.var ("model")]),
  (("postprocess_plane.create_computational_grid"),
    [.tup2 (.numLit 141) (.numLit 241),
      .tup4 (.numLit (-(90e-3))) (.numLit 90e-3) (.numLit (-(90e-3))) (.numLit 90e-3),
      .tup2 (.numLit 1) (.numLit 2)]),
  (("postprocess_plane.compute_fields"), []),
  (("optimus.postprocess.Visualise3DField"), [.var ("model")]),
  (("postprocess_3D.create_computational_grid"), []),
  (("postprocess_3D.add_VisualisePlane"), [.var ("postprocess_plane")]),
  (("postprocess_3D.compute_fields"), []),
  (("postprocess_3D.display_field"), []),
  (("numpy.random.rand"), [.numLit 3, .var ("n")]),
  (("optimus.postprocess.VisualiseCloudPoints"), [.var ("model")]),
  (("points.create_computational_grid"), [.var ("pointsarray")]),
  (("points.compute_fields"), []),
  (("points.display_field"), [.numLit 0.009])]

/-- Completed runs, characterized: if each of the 24 external calls succeeds
with the stated arguments and globals, the run completes in the corresponding
final state. -/
theorem runNotebook_intro (lib : Lib)
    (vsource vmatE vmatI vg1 vg2 vgrids rGrid1 rGrid2 vgeom vmodel rSolve
      vplane rP1 rP2 v3d r3d1 r3d2 r3d3 r3d4 vrand vpoints vcloud rC1 rC2 rC3 : Val)
    (h1 : lib ("optimus.source.create_bowl")
      [.num 100e3, .num (64e-3 / 2), .num 64e-3, .tup [0, 0, -(64e-3)],
        .tup [0, 0, 1], .num 0.04] gImported = some vsource)
    (h2 : lib ("optimus.material.load_material") [.str ("water")] gImported = some vmatE)
    (h3 : lib ("optimus.material.load_material") [.str ("bone (cortical)")] gImported = some vmatI)
    (h4 : lib ("optimus.geometry.load.import_grid")
      [.str ("Data/ribcage4-h-4.msh"), .str ("ribcage4")] gImported = some vg1)
    (h5 : lib ("optimus.geometry.load.import_grid")
      [.str ("Data/ribcage3-h-1.msh"), .str ("ribcage3")] gImported = some vg2)
    (h6 : lib ("optimus.postprocess.Visualise3DGrid") [.listPair vg1 vg2] gWarn = some vgrids)
    (h7 : lib ("create_computational_grid") [vgrids] gWarn = some rGrid1)
    (h8 : lib ("display_field") [vgrids] gWarn = some rGrid2)
    (h9 : lib ("optimus.utils.mesh.scale_mesh") [vg1, .num 1e-3] gWarn = some vgeom)
    (h10 : lib ("optimus.model.create_default_model")
      [vsource, vgeom, vmatE, vmatI] gWarn = some vmodel)
    (h11 : lib ("solve") [vmodel] gWarn = some rSolve)
    (h12 : lib ("optimus.postprocess.VisualisePlane") [vmodel] gPost = some vplane)
    (h13 : lib ("create_computational_grid")
      [vplane, .tup [141, 241], .tup [-(90e-3), 90e-3, -(90e-3), 90e-3], .tup [1, 2]]
      gPost = some rP1)
    (h14 : lib ("compute_fields") [vplane] gPost = some rP2)
    (h15 : lib ("optimus.postprocess.Visualise3DField") [vmodel] gPost = some v3d)
    (h16 : lib ("create_computational_grid") [v3d] gPost = some r3d1)
    (h17 : lib ("add_VisualisePlane") [v3d, vplane] gPost = some r3d2)
    (h18 : lib ("compute_fields") [v3d] gPost = some r3d3)
    (h19 : lib ("display_field") [v3d] gPost = some r3d4)
    (h20 : lib ("numpy.random.rand") [.num 3, .num 500] gPost = some vrand)
    (h21 : (vMulScalar vrand 0.18).bind (fun w => vSubScalar w 0.09) = some vpoints)
    (h22 : lib ("optimus.postprocess.VisualiseCloudPoints") [vmodel] gPost = some vcloud)
    (h23 : lib ("create_computational_grid") [vcloud, vpoints] gPost = some rC1)
    (h24 : lib ("compute_fields") [vcloud] gPost = some rC2)
    (h25 : lib ("display_field") [vcloud, .num 0.009] gPost = some rC3) :
    runNotebook lib = .ok (finalState vsource vmatE vmatI vg1 vg2 vgrids rGrid1
      rGrid2 vgeom vmodel rSolve vplane rP1 rP2 v3d r3d1 r3d2 r3d3 r3d4 vrand
      vpoints vcloud rC1 rC2 rC3) := by
  simp only [gImported, gWarn, gPost] at *
  unfold runNotebook
  simp only [callStep, pureStep, St.emit, St.bindVar, List.cons_append,
    List.nil_append, h1, h2, h3, h4, h5, h6, h7, h8, h9, h10, h11, h12, h13,
    h14, h15, h16, h17, h18, h19, h20, h21, h22, h23, h24, h25]
  rfl

/-- Every run of the notebook either terminates early by an unhandled
exception, having performed a proper prefix of the notebook's fixed sequence
of operations, or completes, with the 24 external calls answered as recorded
and the final state fully determined by those answers. -/
theorem runNotebook_cases (lib : Lib) :
    (∃ st, runNotebook lib = .raised st ∧
      st.trace.map eventSig = notebookSigs.take st.trace.length ∧
      st.trace.length < notebookSigs.length) ∨
    (∃ vsource vmatE vmatI vg1 vg2 vgrids rGrid1 rGrid2 vgeom vmodel rSolve
        vplane rP1 rP2 v3d r3d1 r3d2 r3d3 r3d4 vrand vpoints vcloud rC1 rC2 rC3,
      lib ("optimus.source.create_bowl")
        [.num 100e3, .num (64e-3 / 2), .num 64e-3, .tup [0, 0, -(64e-3)],
          .tup [0, 0, 1], .num 0.04] gImported = some vsource ∧
      lib ("optimus.material.load_material") [.str ("water")] gImported = some vmatE ∧
      lib ("optimus.material.load_material") [.str ("bone (cortical)")] gImported = some vmatI ∧
      lib ("optimus.geometry.load.import_grid")
        [.str ("Data/ribcage4-h-4.msh"), .str ("ribcage4")] gImported = some vg1 ∧
      lib ("optimus.geometry.load.import_grid")
        [.str ("Data/ribcage3-h-1.msh"), .str ("ribcage3")] gImported = some vg2 ∧
      lib ("optimus.postprocess.Visualise3DGrid") [.listPair vg1 vg2] gWarn = some vgrids ∧
      lib ("create_computational_grid") [vgrids] gWarn = some rGrid1 ∧
      lib ("display_field") [vgrids] gWarn = some rGrid2 ∧
      lib ("optimus.utils.mesh.scale_mesh") [vg1, .num 1e-3] gWarn = some vgeom ∧
      lib ("optimus.model.create_default_model") [vsource, vgeom, vmatE, vmatI] gWarn = some vmodel ∧
      lib ("solve") [vmodel] gWarn = some rSolve ∧
      lib ("optimus.postprocess.VisualisePlane") [vmodel] gPost = some vplane ∧
      lib ("create_computational_grid")
        [vplane, .tup [141, 241], .tup [-(90e-3), 90e-3, -(90e-3), 90e-3], .tup [1, 2]]
        gPost = some rP1 ∧
      lib ("compute_fields") [vplane] gPost = some rP2 ∧
      lib ("optimus.postprocess.Visualise3DField") [vmodel] gPost = some v3d ∧
      lib ("create_computational_grid") [v3d] gPost = some r3d1 ∧
      lib ("add_VisualisePlane") [v3d, vplane] gPost = some r3d2 ∧
      lib ("compute_fields") [v3d] gPost = some r3d3 ∧
      lib ("display_field") [v3d] gPost = some r3d4 ∧
      lib ("numpy.random.rand") [.num 3, .num 500] gPost = some vrand ∧
      (vMulScalar vrand 0.18).bind (fun w => vSubScalar w 0.09) = some vpoints ∧
      lib ("optimus.postprocess.VisualiseCloudPoints") [vmodel] gPost = some vcloud ∧
      lib ("create_computational_grid") [vcloud, vpoints] gPost = some rC1 ∧
      lib ("compute_fields") [vcloud] gPost = some rC2 ∧
      lib ("display_field") [vcloud, .num 0.009] gPost = some rC3 ∧
      runNotebook lib = .ok (finalState vsource vmatE vmatI vg1 vg2 vgrids
        rGrid1 rGrid2 vgeom vmodel rSolve vplane rP1 rP2 v3d r3d1 r3d2 r3d3
        r3d4 vrand vpoints vcloud rC1 rC2 rC3)) := by
  rcases Option.eq_none_or_eq_some (lib ("optimus.source.create_bowl") [.num 100e3, .num (64e-3 / 2), .num 64e-3, .tup [0, 0, -(64e-3)], .tup [0, 0, 1], .num 0.04] (⟨[".."], [], none⟩ : Globals)) with h1 | ⟨vsource, h1⟩
  · left
    unfold runNotebook
    simp only [callStep, pureStep, St.emit, St.bindVar, List.cons_append,
      List.nil_append, h1]
    exact ⟨_, rfl, rfl, by simp [notebookSigs]⟩
  rcases Option.eq_none_or_eq_some (lib ("optimus.material.load_material") [.str ("water")] (⟨[".."], [], none⟩ : Globals)) with h2 | ⟨vmatE, h2⟩
  · left
    unfold runNotebook
    simp only [callStep, pureStep, St.emit, St.bindVar, List.cons_append,
      List.nil_append, h1, h2]
    exact ⟨_, rfl, rfl, by simp [notebookSigs]⟩
  rcases Option.eq_none_or_eq_some (lib ("optimus.material.load_material") [.str ("bone (cortical)")] (⟨[".."], [], none⟩ : Globals)) with h3 | ⟨vmatI, h3⟩
  · left
    unfold runNotebook
    simp only [callStep, pureStep, St.emit, St.bindVar, List.cons_append,
      List.nil_append, h1, h2, h3]
    exact ⟨_, rfl, rfl, by simp [notebookSigs]⟩
  rcases Option.eq_none_or_eq_some (lib ("optimus.geometry.load.import_grid") [.str ("Data/ribcage4-h-4.msh"), .str ("ribcage4")] (⟨[".."], [], none⟩ : Globals)) with h4 | ⟨vg1, h4⟩
  · left
    unfold runNotebook
    simp only [callStep, pureStep, St.emit, St.bindVar, List.cons_append,
      List.nil_append, h1, h2, h3, h4]
    exact ⟨_, rfl, rfl, by simp [notebookSigs]⟩
  rcases Option.eq_none_or_eq_some (lib ("optimus.geometry.load.import_grid") [.str ("Data/ribcage3-h-1.msh"), .str ("ribcage3")] (⟨[".."], [], none⟩ : Globals)) with h5 | ⟨vg2, h5⟩
  · left
    unfold runNotebook
    simp only [callStep, pureStep, St.emit, St.bindVar, List.cons_append,
      List.nil_append, h1, h2, h3, h4, h5]
    exact ⟨_, rfl, rfl, by simp [notebookSigs]⟩
  rcases Option.eq_none_or_eq_some (lib ("optimus.postprocess.Visualise3DGrid") [.listPair vg1 vg2] (⟨[".."], [(("ignore"), ("UserWarning"))], none⟩ : Globals)) with h6 | ⟨vgrids, h6⟩
  · left
    unfold runNotebook
    simp only [callStep, pureStep, St.emit, St.bindVar, List.cons_append,
      List.nil_append, h1, h2, h3, h4, h5, h6]
    exact ⟨_, rfl, rfl, by simp [notebookSigs]⟩
  rcases Option.eq_none_or_eq_some (lib ("create_computational_grid") [vgrids] (⟨[".."], [(("ignore"), ("UserWarning"))], none⟩ : Globals)) with h7 | ⟨rGrid1, h7⟩
  · left
    unfold runNotebook
    simp only [callStep, pureStep, St.emit, St.bindVar, List.cons_append,
      List.nil_append, h1, h2, h3, h4, h5, h6, h7]
    exact ⟨_, rfl, rfl, by simp [notebookSigs]⟩
  rcases Option.eq_none_or_eq_some (lib ("display_field") [vgrids] (⟨[".."], [(("ignore"), ("UserWarning"))], none⟩ : Globals)) with h8 | ⟨rGrid2, h8⟩
  · left
    unfold runNotebook
    simp only [callStep, pureStep, St.emit, St.bindVar, List.cons_append,
      List.nil_append, h1, h2, h3, h4, h5, h6, h7, h8]
    exact ⟨_, rfl, rfl, by simp [notebookSigs]⟩
  rcases Option.eq_none_or_eq_some (lib ("optimus.utils.mesh.scale_mesh") [vg1, .num 1e-3] (⟨[".."], [(("ignore"), ("UserWarning"))], none⟩ : Globals)) with h9 | ⟨vgeom, h9⟩
  · left
    unfold runNotebook
    simp only [callStep, pureStep, St.emit, St.bindVar, List.cons_append,
      List.nil_append, h1, h2, h3, h4, h5, h6, h7, h8, h9]
    exact ⟨_, rfl, rfl, by simp [notebookSigs]⟩
  rcases Option.eq_none_or_eq_some (lib ("optimus.model.create_default_model") [vsource, vgeom, vmatE, vmatI] (⟨[".."], [(("ignore"), ("UserWarning"))], none⟩ : Globals)) with h10 | ⟨vmodel, h10⟩
  · left
    unfold runNotebook
    simp only [callStep, pureStep, St.emit, St.bindVar, List.cons_append,
      List.nil_append, h1, h2, h3, h4, h5, h6, h7, h8, h9, h10]
    exact ⟨_, rfl, rfl, by simp [notebookSigs]⟩
  rcases Option.eq_none_or_eq_some (lib ("solve") [vmodel] (⟨[".."], [(("ignore"), ("UserWarning"))], none⟩ : Globals)) with h11 | ⟨rSolve, h11⟩
  · left
    unfold runNotebook
    simp only [callStep, pureStep, St.emit, St.bindVar, List.cons_append,
      List.nil_append, h1, h2, h3, h4, h5, h6, h7, h8, h9, h10, h11]
    exact ⟨_, rfl, rfl, by simp [notebookSigs]⟩
  rcases Option.eq_none_or_eq_some (lib ("optimus.postprocess.VisualisePlane") [vmodel] (⟨[".."], [(("ignore"), ("UserWarning"))], some 20⟩ : Globals)) with h12 | ⟨vplane, h12⟩
  · left
    unfold runNotebook
    simp only [callStep, pureStep, St.emit, St.bindVar, List.cons_append,
      List.nil_append, h1, h2, h3, h4, h5, h6, h7, h8, h9, h10, h11, h12]
    exact ⟨_, rfl, rfl, by simp [notebookSigs]⟩
  rcases Option.eq_none_or_eq_some (lib ("create_computational_grid") [vplane, .tup [141, 241], .tup [-(90e-3), 90e-3, -(90e-3), 90e-3], .tup [1, 2]] (⟨[".."], [(("ignore"), ("UserWarning"))], some 20⟩ : Globals)) with h13 | ⟨rP1, h13⟩
  · left
    unfold runNotebook
    simp only [callStep, pureStep, St.emit, St.bindVar, List.cons_append,
      List.nil_append, h1, h2, h3, h4, h5, h6, h7, h8, h9, h10, h11, h12, h13]
    exact ⟨_, rfl, rfl, by simp [notebookSigs]⟩
  rcases Option.eq_none_or_eq_some (lib ("compute_fields") [vplane] (⟨[".."], [(("ignore"), ("UserWarning"))], some 20⟩ : Globals)) with h14 | ⟨rP2, h14⟩
  · left
    unfold runNotebook
    simp only [callStep, pureStep, St.emit, St.bindVar, List.cons_append,
      List.nil_append, h1, h2, h3, h4, h5, h6, h7, h8, h9, h10, h11, h12, h13, h14]
    exact ⟨_, rfl, rfl, by simp [notebookSigs]⟩
  rcases Option.eq_none_or_eq_some (lib ("optimus.postprocess.Visualise3DField") [vmodel] (⟨[".."], [(("ignore"), ("UserWarning"))], some 20⟩ : Globals)) with h15 | ⟨v3d, h15⟩
  · left
    unfold runNotebook
    simp only [callStep, pureStep, St.emit, St.bindVar, List.cons_append,
      List.nil_append, h1, h2, h3, h4, h5, h6, h7, h8, h9, h10, h11, h12, h13, h14, h15]
    exact ⟨_, rfl, rfl, by simp [notebookSigs]⟩
  rcases Option.eq_none_or_eq_some (lib ("create_computational_grid") [v3d] (⟨[".."], [(("ignore"), ("UserWarning"))], some 20⟩ : Globals)) with h16 | ⟨r3d1, h16⟩
  · left
    unfold runNotebook
    simp only [callStep, pureStep, St.emit, St.bindVar, List.cons_append,
      List.nil_append, h1, h2, h3, h4, h5, h6, h7, h8, h9, h10, h11, h12, h13, h14, h15, h16]
    exact ⟨_, rfl, rfl, by simp [notebookSigs]⟩
  rcases Option.eq_none_or_eq_some (lib ("add_VisualisePlane") [v3d, vplane] (⟨[".."], [(("ignore"), ("UserWarning"))], some 20⟩ : Globals)) with h17 | ⟨r3d2, h17⟩
  · left
    unfold runNotebook
    simp only [callStep, pureStep, St.emit, St.bindVar, List.cons_append,
      List.nil_append, h1, h2, h3, h4, h5, h6, h7, h8, h9, h10, h11, h12, h13, h14, h15, h16, h17]
    exact ⟨_, rfl, rfl, by simp [notebookSigs]⟩
  rcases Option.eq_none_or_eq_some (lib ("compute_fields") [v3d] (⟨[".."], [(("ignore"), ("UserWarning"))], some 20⟩ : Globals)) with h18 | ⟨r3d3, h18⟩
  · left
    unfold runNotebook
    simp only [callStep, pureStep, St.emit, St.bindVar, List.cons_append,
      List.nil_append, h1, h2, h3, h4, h5, h6, h7, h8, h9, h10, h11, h12, h13, h14, h15, h16, h17, h18]
    exact ⟨_, rfl, rfl, by simp [notebookSigs]⟩
  rcases Option.eq_none_or_eq_some (lib ("display_field") [v3d] (⟨[".."], [(("ignore"), ("UserWarning"))], some 20⟩ : Globals)) with h19 | ⟨r3d4, h19⟩
  · left
    unfold runNotebook
    simp only [callStep, pureStep, St.emit, St.bindVar, List.cons_append,
      List.nil_append, h1, h2, h3, h4, h5, h6, h7, h8, h9, h10, h11, h12, h13, h14, h15, h16, h17, h18, h19]
    exact ⟨_, rfl, rfl, by simp [notebookSigs]⟩
  rcases Option.eq_none_or_eq_some (lib ("numpy.random.rand") [.num 3, .num 500] (⟨[".."], [(("ignore"), ("UserWarning"))], some 20⟩ : Globals)) with h20 | ⟨vrand, h20⟩
  · left
    unfold runNotebook
    simp only [callStep, pureStep, St.emit, St.bindVar, List.cons_append,
      List.nil_append, h1, h2, h3, h4, h5, h6, h7, h8, h9, h10, h11, h12, h13, h14, h15, h16, h17, h18, h19, h20]
    exact ⟨_, rfl, rfl, by simp [notebookSigs]⟩
  rcases Option.eq_none_or_eq_some (((vMulScalar vrand 0.18).bind (fun w => vSubScalar w 0.09))) with h21 | ⟨vpoints, h21⟩
  · left
    unfold runNotebook
    simp only [callStep, pureStep, St.emit, St.bindVar, List.cons_append,
      List.nil_append, h1, h2, h3, h4, h5, h6, h7, h8, h9, h10, h11, h12, h13, h14, h15, h16, h17, h18, h19, h20, h21]
    exact ⟨_, rfl, rfl, by simp [notebookSigs]⟩
  rcases Option.eq_none_or_eq_some (lib ("optimus.postprocess.VisualiseCloudPoints") [vmodel] (⟨[".."], [(("ignore"), ("UserWarning"))], some 20⟩ : Globals)) with h22 | ⟨vcloud, h22⟩
  · left
    unfold runNotebook
    simp only [callStep, pureStep, St.emit, St.bindVar, List.cons_append,
      List.nil_append, h1, h2, h3, h4, h5, h6, h7, h8, h9, h10, h11, h12, h13, h14, h15, h16, h17, h18, h19, h20, h21, h22]
    exact ⟨_, rfl, rfl, by simp [notebookSigs]⟩
  rcases Option.eq_none_or_eq_some (lib ("create_computational_grid") [vcloud, vpoints] (⟨[".."], [(("ignore"), ("UserWarning"))], some 20⟩ : Globals)) with h23 | ⟨rC1, h23⟩
  · left
    unfold runNotebook
    simp only [callStep, pureStep, St.emit, St.bindVar, List.cons_append,
      List.nil_append, h1, h2, h3, h4, h5, h6, h7, h8, h9, h10, h11, h12, h13, h14, h15, h16, h17, h18, h19, h20, h21, h22, h23]
    exact ⟨_, rfl, rfl, by simp [notebookSigs]⟩
  rcases Option.eq_none_or_eq_some (lib ("compute_fields") [vcloud] (⟨[".."], [(("ignore"), ("UserWarning"))], some 20⟩ : Globals)) with h24 | ⟨rC2, h24⟩
  · left
    unfold runNotebook
    simp only [callStep, pureStep, St.emit, St.bindVar, List.cons_append,
      List.nil_append, h1, h2, h3, h4, h5, h6, h7, h8, h9, h10, h11, h12, h13, h14, h15, h16, h17, h18, h19, h20, h21, h22, h23, h24]
    exact ⟨_, rfl, rfl, by simp [notebookSigs]⟩
  rcases Option.eq_none_or_eq_some (lib ("display_field") [vcloud, .num 0.009] (⟨[".."], [(("ignore"), ("UserWarning"))], some 20⟩ : Globals)) with h25 | ⟨rC3, h25⟩
  · left
    unfold runNotebook
    simp only [callStep, pureStep, St.emit, St.bindVar, List.cons_append,
      List.nil_append, h1, h2, h3, h4, h5, h6, h7, h8, h9, h10, h11, h12, h13, h14, h15, h16, h17, h18, h19, h20, h21, h22, h23, h24, h25]
    exact ⟨_, rfl, rfl, by simp [notebookSigs]⟩
  right
  exact ⟨vsource, vmatE, vmatI, vg1, vg2, vgrids, rGrid1, rGrid2, vgeom, vmodel, rSolve, vplane, rP1, rP2, v3d, r3d1, r3d2, r3d3, r3d4, vrand, vpoints, vcloud, rC1, rC2, rC3,
    h1, h2, h3, h4, h5, h6, h7, h8, h9, h10, h11, h12, h13, h14, h15, h16, h17, h18, h19, h20, h21, h22, h23, h24, h25,
    runNotebook_intro lib vsource vmatE vmatI vg1 vg2 vgrids rGrid1 rGrid2 vgeom vmodel rSolve vplane rP1 rP2 v3d r3d1 r3d2 r3d3 r3d4 vrand vpoints vcloud rC1 rC2 rC3
      h1 h2 h3 h4 h5 h6 h7 h8 h9 h10 h11 h12 h13 h14 h15 h16 h17 h18 h19 h20 h21 h22 h23 h24 h25⟩

/-- A completed run determines the answers of the 24 external calls and the
final state. -/
theorem runNotebook_ok_elim (lib : Lib) (st : St) (h : runNotebook lib = .ok st) :
    ∃ vsource vmatE vmatI vg1 vg2 vgrids rGrid1 rGrid2 vgeom vmodel rSolve
        vplane rP1 rP2 v3d r3d1 r3d2 r3d3 r3d4 vrand vpoints vcloud rC1 rC2 rC3,
      lib ("optimus.source.create_bowl")
        [.num 100e3, .num (64e-3 / 2), .num 64e-3, .tup [0, 0, -(64e-3)],
          .tup [0, 0, 1], .num 0.04] gImported = some vsource ∧
      lib ("optimus.material.load_material") [.str ("water")] gImported = some vmatE ∧
      lib ("optimus.material.load_material") [.str ("bone (cortical)")] gImported = some vmatI ∧
      lib ("optimus.geometry.load.import_grid")
        [.str ("Data/ribcage4-h-4.msh"), .str ("ribcage4")] gImported = some vg1 ∧
      lib ("optimus.geometry.load.import_grid")
        [.str ("Data/ribcage3-h-1.msh"), .str ("ribcage3")] gImported = some vg2 ∧
      lib ("optimus.postprocess.Visualise3DGrid") [.listPair vg1 vg2] gWarn = some vgrids ∧
      lib ("create_computational_grid") [vgrids] gWarn = some rGrid1 ∧
      lib ("display_field") [vgrids] gWarn = some rGrid2 ∧
      lib ("optimus.utils.mesh.scale_mesh") [vg1, .num 1e-3] gWarn = some vgeom ∧
      lib ("optimus.model.create_default_model") [vsource, vgeom, vmatE, vmatI] gWarn = some vmodel ∧
      lib ("solve") [vmodel] gWarn = some rSolve ∧
      lib ("optimus.postprocess.VisualisePlane") [vmodel] gPost = some vplane ∧
      lib ("create_computational_grid")
        [vplane, .tup [141, 241], .tup [-(90e-3), 90e-3, -(90e-3), 90e-3], .tup [1, 2]]
        gPost = some rP1 ∧
      lib ("compute_fields") [vplane] gPost = some rP2 ∧
      lib ("optimus.postprocess.Visualise3DField") [vmodel] gPost = some v3d ∧
      lib ("create_computational_grid") [v3d] gPost = some r3d1 ∧
      lib ("add_VisualisePlane") [v3d, vplane] gPost = some r3d2 ∧
      lib ("compute_fields") [v3d] gPost = some r3d3 ∧
      lib ("display_field") [v3d] gPost = some r3d4 ∧
      lib ("numpy.random.rand") [.num 3, .num 500] gPost = some vrand ∧
      (vMulScalar vrand 0.18).bind (fun w => vSubScalar w 0.09) = some vpoints ∧
      lib ("optimus.postprocess.VisualiseCloudPoints") [vmodel] gPost = some vcloud ∧
      lib ("create_computational_grid") [vcloud, vpoints] gPost = some rC1 ∧
      lib ("compute_fields") [vcloud] gPost = some rC2 ∧
      lib ("display_field") [vcloud, .num 0.009] gPost = some rC3 ∧
      st = finalState vsource vmatE vmatI vg1 vg2 vgrids rGrid1 rGrid2 vgeom
        vmodel rSolve vplane rP1 rP2 v3d r3d1 r3d2 r3d3 r3d4 vrand vpoints
        vcloud rC1 rC2 rC3 := by
  rcases runNotebook_cases lib with ⟨st2, hr, _, _⟩ | hok
  · rw [h] at hr
    exact Outcome.noConfusion hr
  · rcases hok with ⟨vsource, vmatE, vmatI, vg1, vg2, vgrids, rGrid1, rGrid2, vgeom, vmodel, rSolve, vplane, rP1, rP2, v3d, r3d1, r3d2, r3d3, r3d4, vrand, vpoints, vcloud, rC1, rC2, rC3,
      e1, e2, e3, e4, e5, e6, e7, e8, e9, e10, e11, e12, e13, e14, e15, e16, e17, e18, e19, e20, e21, e22, e23, e24, e25, hok⟩
    refine ⟨vsource, vmatE, vmatI, vg1, vg2, vgrids, rGrid1, rGrid2, vgeom, vmodel, rSolve, vplane, rP1, rP2, v3d, r3d1, r3d2, r3d3, r3d4, vrand, vpoints, vcloud, rC1, rC2, rC3,
      e1, e2, e3, e4, e5, e6, e7, e8, e9, e10, e11, e12, e13, e14, e15, e16, e17, e18, e19, e20, e21, e22, e23, e24, e25, ?_⟩
    rw [h] at hok
    exact Outcome.ok.inj hok

/-- In every completed run, the performed operations are exactly the fixed
textual sequence `notebookSigs` (shared helper). -/
theorem trace_sigs_of_ok (lib : Lib) (st : St)
    (h : runNotebook lib = .ok st) :
    st.trace.map eventSig = notebookSigs := by
  rcases runNotebook_ok_elim lib st h with ⟨_, _, _, _, _, _, _, _, _, _, _, _,
    _, _, _, _, _, _, _, _, _, _, _, _, _, -, -, -, -, -, -, -, -, -, -, -, -,
    -, -, -, -, -, -, -, -, -, -, -, -, -, hst⟩
  subst hst
  rfl

/-- C6: the notebook is a straight-line program — no decision logic,
branching, loop, retry, or error recovery of its own — so in every run in
which no call raises, the performed operations are exactly the fixed textual
sequence `notebookSigs`: each external library call once per occurrence in
the script, in the textual order of the cells. -/
theorem c6_straight_line_trace (lib : Lib) (st : St)
    (h : runNotebook lib = .ok st) :
    st.trace.map eventSig = notebookSigs :=
  trace_sigs_of_ok lib st h

/-- Witness for `c6_straight_line_trace`, at the concrete library `libC`. -/
theorem c6_straight_line_trace_witness :
    (runNotebook libC).state.trace.map eventSig = notebookSigs :=
  c6_straight_line_trace libC (runNotebook libC).state rfl

/-- C3: the notebook suppresses exactly one warning category globally
(`"ignore"` of `UserWarning`, via `warnings.simplefilter`) and contains no
exception handling: every completed run performs exactly one warning-filter
installation, and whenever the external library raises at any call, the run
terminates having performed only a proper prefix of the notebook's operation
sequence, so none of the subsequent calls is executed. -/
theorem c3_error_handling :
    (∀ lib st, runNotebook lib = .ok st →
      st.trace.filter Event.isWarnFilter = [.warnFilter ("ignore") ("UserWarning")]) ∧
    (∀ lib st, runNotebook lib = .raised st →
      st.trace.map eventSig = notebookSigs.take st.trace.length ∧
      st.trace.length < notebookSigs.length) := by
  constructor
  · intro lib st h
    rcases runNotebook_ok_elim lib st h with ⟨_, _, _, _, _, _, _, _, _, _, _,
      _, _, _, _, _, _, _, _, _, _, _, _, _, _, -, -, -, -, -, -, -, -, -, -,
      -, -, -, -, -, -, -, -, -, -, -, -, -, -, -, hst⟩
    subst hst
    rfl
  · intro lib st h
    rcases runNotebook_cases lib with ⟨st2, hr, hpre, hlen⟩ | hok
    · cases (h.symm.trans hr : Outcome.raised st = Outcome.raised st2) with
      | refl => exact ⟨hpre, hlen⟩
    · rcases hok with ⟨_, _, _, _, _, _, _, _, _, _, _, _, _, _, _, _, _, _, _,
        _, _, _, _, _, _, -, -, -, -, -, -, -, -, -, -, -, -, -, -, -, -, -, -,
        -, -, -, -, -, -, -, hok⟩
      rw [h] at hok
      exact Outcome.noConfusion hok

/-- Witness for `c3_error_handling`: a completed run at `libC`, and a run at
`libR` in which `solve` raises. -/
theorem c3_error_handling_witness :
    ((runNotebook libC).state.trace.filter Event.isWarnFilter =
      [.warnFilter ("ignore") ("UserWarning")]) ∧
    ((runNotebook libR).state.trace.map eventSig =
        notebookSigs.take (runNotebook libR).state.trace.length ∧
      (runNotebook libR).state.trace.length < notebookSigs.length) :=
  ⟨c3_error_handling.1 libC (runNotebook libC).state rfl,
    c3_error_handling.2 libR (runNotebook libR).state rfl⟩

/-- C5 as stated is false: the quadrature order is not the only global state
the notebook mutates.  In the completed run at `libC`, `sys.path` and the
global warnings filter have also been modified by the notebook. -/
theorem c5_counterexample :
    ¬ (∀ lib st, runNotebook lib = .ok st →
        st.globals.sysPath = ([] : List String) ∧
        st.globals.warnFilters = ([] : List (String × String))) := by
  intro hcl
  rcases hcl libC (runNotebook libC).state rfl with ⟨-, h2⟩
  exact absurd h2 (by decide)

/-- C5 amended: the notebook mutates exactly three pieces of global state —
`sys.path` (one append of ".."), the warnings filter (one `simplefilter`),
and the post-processing quadrature order (set to 20) — and nothing else:
every completed run ends with globals `gPost`, and its trace holds exactly
those three global-mutation events. -/
theorem c5_global_mutations (lib : Lib) (st : St)
    (h : runNotebook lib = .ok st) :
    st.globals = gPost ∧
    st.trace.filter Event.isGlobalMutation =
      [.pathAppend (".."), .warnFilter ("ignore") ("UserWarning"),
        .setQuadratureOrder 20] := by
  rcases runNotebook_ok_elim lib st h with ⟨_, _, _, _, _, _, _, _, _, _, _, _,
    _, _, _, _, _, _, _, _, _, _, _, _, _, -, -, -, -, -, -, -, -, -, -, -, -,
    -, -, -, -, -, -, -, -, -, -, -, -, -, hst⟩
  subst hst
  exact ⟨rfl, rfl⟩

/-- Witness for `c5_global_mutations`, at the concrete library `libC`. -/
theorem c5_global_mutations_witness :
    (runNotebook libC).state.globals = gPost ∧
    (runNotebook libC).state.trace.filter Event.isGlobalMutation =
      [.pathAppend (".."), .warnFilter ("ignore") ("UserWarning"),
        .setQuadratureOrder 20] :=
  c5_global_mutations libC (runNotebook libC).state rfl

/-- Sanity of `postprocessVars`: in the notebook's operation sequence, the
calls bound to those variables are exactly the four `optimus.postprocess`
constructions. -/
theorem postprocessVars_bound :
    notebookSigs.filter
        (fun s => match s.bound with
          | some x => postprocessVars.contains x
          | none => false) =
      notebookSigs.filter (fun s => strStarts ("optimus.postprocess.") s.fn) := by
  decide

/-- C1 as stated is false: a post-processing operation does precede the
assignment `optimus.global_parameters.postprocessing.quadrature_order = 20`.
In the completed run at `libC`, the construction of the postprocess object
`Visualise3DGrid` (the mesh check) occurs before the assignment. -/
theorem c1_counterexample :
    ¬ (∀ lib st, runNotebook lib = .ok st →
        ∀ s ∈ (st.trace.map eventSig).takeWhile (fun t => t.fn != quadSigName),
          isPostprocessSig s = false) := by
  intro hcl
  have h := hcl libC (runNotebook libC).state rfl
    (⟨("optimus.postprocess.Visualise3DGrid"), none, some ("grids")⟩ : CallSig)
    (by decide)
  exact absurd h (by decide)

/-- C1 amended: the quadrature-order assignment is performed exactly once, at
position 16 of the notebook's operation sequence, and the only
post-processing operations preceding it are the three mesh-check operations
on `Visualise3DGrid` (its construction, `create_computational_grid` and
`display_field`); every other post-processing operation comes after it. -/
theorem c1_quadrature_order_assignment (lib : Lib) (st : St)
    (h : runNotebook lib = .ok st) :
    st.trace.map eventSig = notebookSigs ∧
    notebookSigs.get? 16 = some ⟨quadSigName, none, none⟩ ∧
    (notebookSigs.filter (fun s => s.fn == quadSigName)).length = 1 ∧
    (notebookSigs.take 16).filter isPostprocessSig =
      [⟨("optimus.postprocess.Visualise3DGrid"), none, some ("grids")⟩,
        ⟨("create_computational_grid"), some ("grids"), none⟩,
        ⟨("display_field"), some ("grids"), none⟩] := by
  refine ⟨trace_sigs_of_ok lib st h, by decide, by decide, by decide⟩

/-- Witness for `c1_quadrature_order_assignment`, at `libC`. -/
theorem c1_quadrature_order_assignment_witness :
    (runNotebook libC).state.trace.map eventSig = notebookSigs ∧
    notebookSigs.get? 16 = some ⟨quadSigName, none, none⟩ ∧
    (notebookSigs.filter (fun s => s.fn == quadSigName)).length = 1 ∧
    (notebookSigs.take 16).filter isPostprocessSig =
      [⟨("optimus.postprocess.Visualise3DGrid"), none, some ("grids")⟩,
        ⟨("create_computational_grid"), some ("grids"), none⟩,
        ⟨("display_field"), some ("grids"), none⟩] :=
  c1_quadrature_order_assignment libC (runNotebook libC).state rfl

/-- C2 as stated is false: not every postprocess object is constructed after
`solve()` with all three methods invoked on it.  In the completed run at
`libC`, the `Visualise3DGrid` construction precedes `solve()`. -/
theorem c2_counterexample :
    ¬ (∀ lib st, runNotebook lib = .ok st →
        ∀ s ∈ st.trace.map eventSig,
          strStarts ("optimus.postprocess.") s.fn = true →
          (¬ s ∈ (st.trace.map eventSig).takeWhile (fun t => t.fn != "solve")) ∧
          (∀ x, s.bound = some x →
            methodCount (st.trace.map eventSig) ("create_computational_grid") x ≥ 1 ∧
            methodCount (st.trace.map eventSig) ("compute_fields") x ≥ 1 ∧
            methodCount (st.trace.map eventSig) ("display_field") x ≥ 1)) := by
  intro hcl
  have h := hcl libC (runNotebook libC).state rfl
    (⟨("optimus.postprocess.Visualise3DGrid"), none, some ("grids")⟩ : CallSig)
    (by decide) (by decide)
  exact absurd (by decide) h.1

/-- C2 amended: the notebook constructs exactly four postprocess objects.
The three constructed from the solved model (`VisualisePlane`,
`Visualise3DField`, `VisualiseCloudPoints`) are constructed after `solve()`,
and each receives `create_computational_grid` and `compute_fields`;
`display_field` is invoked on `Visualise3DField` and `VisualiseCloudPoints`
but not on `VisualisePlane`.  The mesh-check object `Visualise3DGrid` is
constructed before `solve()` and receives `create_computational_grid` and
`display_field` but not `compute_fields`. -/
theorem c2_postprocess_objects (lib : Lib) (st : St)
    (h : runNotebook lib = .ok st) :
    st.trace.map eventSig = notebookSigs ∧
    notebookSigs.filter (fun s => strStarts ("optimus.postprocess.") s.fn) =
      [⟨("optimus.postprocess.Visualise3DGrid"), none, some ("grids")⟩,
        ⟨("optimus.postprocess.VisualisePlane"), none, some ("postprocess_plane")⟩,
        ⟨("optimus.postprocess.Visualise3DField"), none, some ("postprocess_3D")⟩,
        ⟨("optimus.postprocess.VisualiseCloudPoints"), none, some ("points")⟩] ∧
    (notebookSigs.takeWhile (fun t => t.fn != "solve")).filter
        (fun s => strStarts ("optimus.postprocess.") s.fn) =
      [⟨("optimus.postprocess.Visualise3DGrid"), none, some ("grids")⟩] ∧
    postprocessVars.map (fun x =>
        (methodCount notebookSigs ("create_computational_grid") x,
          methodCount notebookSigs ("compute_fields") x,
          methodCount notebookSigs ("display_field") x)) =
      [(1, 0, 1), (1, 1, 0), (1, 1, 1), (1, 1, 1)] := by
  refine ⟨trace_sigs_of_ok lib st h, by decide, by decide, by decide⟩

/-- Witness for `c2_postprocess_objects`, at `libC`. -/
theorem c2_postprocess_objects_witness :
    (runNotebook libC).state.trace.map eventSig = notebookSigs ∧
    notebookSigs.filter (fun s => strStarts ("optimus.postprocess.") s.fn) =
      [⟨("optimus.postprocess.Visualise3DGrid"), none, some ("grids")⟩,
        ⟨("optimus.postprocess.VisualisePlane"), none, some ("postprocess_plane")⟩,
        ⟨("optimus.postprocess.Visualise3DField"), none, some ("postprocess_3D")⟩,
        ⟨("optimus.postprocess.VisualiseCloudPoints"), none, some ("points")⟩] ∧
    (notebookSigs.takeWhile (fun t => t.fn != "solve")).filter
        (fun s => strStarts ("optimus.postprocess.") s.fn) =
      [⟨("optimus.postprocess.Visualise3DGrid"), none, some ("grids")⟩] ∧
    postprocessVars.map (fun x =>
        (methodCount notebookSigs ("create_computational_grid") x,
          methodCount notebookSigs ("compute_fields") x,
          methodCount notebookSigs ("display_field") x)) =
      [(1, 0, 1), (1, 1, 0), (1, 1, 1), (1, 1, 1)] :=
  c2_postprocess_objects libC (runNotebook libC).state rfl

/-- C7: the return value of `model.solve()` is never bound or inspected by the
notebook: replacing it by an arbitrary value `v` leaves a completed run
completed, with the same variable bindings, the same globals, and the same
trace up to the recorded result of the `solve` event itself. -/
theorem c7_solve_result_unused (lib : Lib) (v : Val) (st : St)
    (h : runNotebook lib = .ok st) :
    ∃ st', runNotebook (solveOverride lib v) = .ok st' ∧
      st'.env = st.env ∧ st'.globals = st.globals ∧
      st'.trace.map maskSolveResult = st.trace.map maskSolveResult := by
  rcases runNotebook_ok_elim lib st h with ⟨vsource, vmatE, vmatI, vg1, vg2, vgrids, rGrid1, rGrid2, vgeom, vmodel, rSolve, vplane, rP1, rP2, v3d, r3d1, r3d2, r3d3, r3d4, vrand, vpoints, vcloud, rC1, rC2, rC3,
    e1, e2, e3, e4, e5, e6, e7, e8, e9, e10, e11, e12, e13, e14, e15, e16, e17, e18, e19, e20, e21, e22, e23, e24, e25, hst⟩
  subst hst
  have hne : ∀ fn, fn ≠ "solve" → ∀ args g,
      solveOverride lib v fn args g = lib fn args g := by
    intro fn hfn args g
    simp [solveOverride, hfn]
  have hsolve : solveOverride lib v ("solve") [vmodel] gWarn = some v := by
    simp [solveOverride, e11]
  refine ⟨finalState vsource vmatE vmatI vg1 vg2 vgrids rGrid1 rGrid2 vgeom
      vmodel v vplane rP1 rP2 v3d r3d1 r3d2 r3d3 r3d4 vrand vpoints vcloud
      rC1 rC2 rC3,
    runNotebook_intro (solveOverride lib v) vsource vmatE vmatI vg1 vg2 vgrids
      rGrid1 rGrid2 vgeom vmodel v vplane rP1 rP2 v3d r3d1 r3d2 r3d3 r3d4
      vrand vpoints vcloud rC1 rC2 rC3
      ((hne ("optimus.source.create_bowl") (by decide) _ _).trans e1)
      ((hne ("optimus.material.load_material") (by decide) _ _).trans e2)
      ((hne ("optimus.material.load_material") (by decide) _ _).trans e3)
      ((hne ("optimus.geometry.load.import_grid") (by decide) _ _).trans e4)
      ((hne ("optimus.geometry.load.import_grid") (by decide) _ _).trans e5)
      ((hne ("optimus.postprocess.Visualise3DGrid") (by decide) _ _).trans e6)
      ((hne ("create_computational_grid") (by decide) _ _).trans e7)
      ((hne ("display_field") (by decide) _ _).trans e8)
      ((hne ("optimus.utils.mesh.scale_mesh") (by decide) _ _).trans e9)
      ((hne ("optimus.model.create_default_model") (by decide) _ _).trans e10)
      hsolve
      ((hne ("optimus.postprocess.VisualisePlane") (by decide) _ _).trans e12)
      ((hne ("create_computational_grid") (by decide) _ _).trans e13)
      ((hne ("compute_fields") (by decide) _ _).trans e14)
      ((hne ("optimus.postprocess.Visualise3DField") (by decide) _ _).trans e15)
      ((hne ("create_computational_grid") (by decide) _ _).trans e16)
      ((hne ("add_VisualisePlane") (by decide) _ _).trans e17)
      ((hne ("compute_fields") (by decide) _ _).trans e18)
      ((hne ("display_field") (by decide) _ _).trans e19)
      ((hne ("numpy.random.rand") (by decide) _ _).trans e20)
      e21
      ((hne ("optimus.postprocess.VisualiseCloudPoints") (by decide) _ _).trans e22)
      ((hne ("create_computational_grid") (by decide) _ _).trans e23)
      ((hne ("compute_fields") (by decide) _ _).trans e24)
      ((hne ("display_field") (by decide) _ _).trans e25),
    rfl, rfl, rfl⟩

/-- Witness for `c7_solve_result_unused`, at `libC` with replacement value 7. -/
theorem c7_solve_result_unused_witness :
    ∃ st', runNotebook (solveOverride libC (.num 7)) = .ok st' ∧
      st'.env = (runNotebook libC).state.env ∧
      st'.globals = (runNotebook libC).state.globals ∧
      st'.trace.map maskSolveResult =
        (runNotebook libC).state.trace.map maskSolveResult :=
  c7_solve_result_unused libC (.num 7) (runNotebook libC).state rfl

/-- C9: the solved model and every computed field are independent of the
second imported mesh: in two completed runs that differ only in `geometry2`,
the `model` binding and the results of every `compute_fields` call coincide,
and the traces agree everywhere except at the `geometry2` import itself and
the three mesh-check operations on `Visualise3DGrid` (trace positions 7 and
10-12). -/
theorem c9_geometry2_noninterference (lib : Lib) (w : Val) (st st2 : St)
    (h : runNotebook lib = .ok st)
    (h2 : runNotebook (geometry2Override lib w) = .ok st2) :
    lookupVar st2 ("model") = lookupVar st ("model") ∧
    computeFieldsResults st2.trace = computeFieldsResults st.trace ∧
    st2.trace.take 7 = st.trace.take 7 ∧
    st2.trace.get? 8 = st.trace.get? 8 ∧
    st2.trace.get? 9 = st.trace.get? 9 ∧
    st2.trace.drop 13 = st.trace.drop 13 := by
  rcases runNotebook_ok_elim lib st h with ⟨vsource, vmatE, vmatI, vg1, vg2, vgrids, rGrid1, rGrid2, vgeom, vmodel, rSolve, vplane, rP1, rP2, v3d, r3d1, r3d2, r3d3, r3d4, vrand, vpoints, vcloud, rC1, rC2, rC3,
    e1, e2, e3, e4, e5, e6, e7, e8, e9, e10, e11, e12, e13, e14, e15, e16, e17, e18, e19, e20, e21, e22, e23, e24, e25, hst⟩
  subst hst
  rcases runNotebook_ok_elim (geometry2Override lib w) st2 h2 with ⟨u1, u2, u3, u4, u5, u6, u7, u8, u9, u10, u11, u12, u13, u14, u15, u16, u17, u18, u19, u20, u21, u22, u23, u24, u25,
    f1, f2, f3, f4, f5, f6, f7, f8, f9, f10, f11, f12, f13, f14, f15, f16, f17, f18, f19, f20, f21, f22, f23, f24, f25, hst2⟩
  subst hst2
  simp only [geometry2Override] at f1 f2 f3 f4 f6 f7 f8 f9 f10 f11 f12 f13 f14 f15 f16 f17 f18 f19 f20 f22 f23 f24 f25
  rw [if_neg (fun hc => absurd hc.1 (by decide))] at f1
  rw [if_neg (fun hc => absurd hc.1 (by decide))] at f2
  rw [if_neg (fun hc => absurd hc.1 (by decide))] at f3
  rw [if_neg (fun hc => absurd hc.2 (by decide))] at f4
  rw [if_neg (fun hc => absurd hc.1 (by decide))] at f6
  rw [if_neg (fun hc => absurd hc.1 (by decide))] at f7
  rw [if_neg (fun hc => absurd hc.1 (by decide))] at f8
  rw [if_neg (fun hc => absurd hc.1 (by decide))] at f9
  rw [if_neg (fun hc => absurd hc.1 (by decide))] at f10
  rw [if_neg (fun hc => absurd hc.1 (by decide))] at f11
  rw [if_neg (fun hc => absurd hc.1 (by decide))] at f12
  rw [if_neg (fun hc => absurd hc.1 (by decide))] at f13
  rw [if_neg (fun hc => absurd hc.1 (by decide))] at f14
  rw [if_neg (fun hc => absurd hc.1 (by decide))] at f15
  rw [if_neg (fun hc => absurd hc.1 (by decide))] at f16
  rw [if_neg (fun hc => absurd hc.1 (by decide))] at f17
  rw [if_neg (fun hc => absurd hc.1 (by decide))] at f18
  rw [if_neg (fun hc => absurd hc.1 (by decide))] at f19
  rw [if_neg (fun hc => absurd hc.1 (by decide))] at f20
  rw [if_neg (fun hc => absurd hc.1 (by decide))] at f22
  rw [if_neg (fun hc => absurd hc.1 (by decide))] at f23
  rw [if_neg (fun hc => absurd hc.1 (by decide))] at f24
  rw [if_neg (fun hc => absurd hc.1 (by decide))] at f25
  have hid1 : u1 = vsource := Option.some.inj (f1.symm.trans e1)
  subst hid1
  have hid2 : u2 = vmatE := Option.some.inj (f2.symm.trans e2)
  subst hid2
  have hid3 : u3 = vmatI := Option.some.inj (f3.symm.trans e3)
  subst hid3
  have hid4 : u4 = vg1 := Option.some.inj (f4.symm.trans e4)
  subst hid4
  have hid9 : u9 = vgeom := Option.some.inj (f9.symm.trans e9)
  subst hid9
  have hid10 : u10 = vmodel := Option.some.inj (f10.symm.trans e10)
  subst hid10
  have hid11 : u11 = rSolve := Option.some.inj (f11.symm.trans e11)
  subst hid11
  have hid12 : u12 = vplane := Option.some.inj (f12.symm.trans e12)
  subst hid12
  have hid13 : u13 = rP1 := Option.some.inj (f13.symm.trans e13)
  subst hid13
  have hid14 : u14 = rP2 := Option.some.inj (f14.symm.trans e14)
  subst hid14
  have hid15 : u15 = v3d := Option.some.inj (f15.symm.trans e15)
  subst hid15
  have hid16 : u16 = r3d1 := Option.some.inj (f16.symm.trans e16)
  subst hid16
  have hid17 : u17 = r3d2 := Option.some.inj (f17.symm.trans e17)
  subst hid17
  have hid18 : u18 = r3d3 := Option.some.inj (f18.symm.trans e18)
  subst hid18
  have hid19 : u19 = r3d4 := Option.some.inj (f19.symm.trans e19)
  subst hid19
  have hid20 : u20 = vrand := Option.some.inj (f20.symm.trans e20)
  subst hid20
  have hid21 : u21 = vpoints := Option.some.inj (f21.symm.trans e21)
  subst hid21
  have hid22 : u22 = vcloud := Option.some.inj (f22.symm.trans e22)
  subst hid22
  have hid23 : u23 = rC1 := Option.some.inj (f23.symm.trans e23)
  subst hid23
  have hid24 : u24 = rC2 := Option.some.inj (f24.symm.trans e24)
  subst hid24
  have hid25 : u25 = rC3 := Option.some.inj (f25.symm.trans e25)
  subst hid25
  exact ⟨rfl, rfl, rfl, rfl, rfl, rfl⟩

/-- Witness for `c9_geometry2_noninterference`: `libC` against its
`geometry2`-override by an opaque object. -/
theorem c9_geometry2_noninterference_witness :
    lookupVar (runNotebook (geometry2Override libC (.obj ("mesh") 1))).state ("model") =
      lookupVar (runNotebook libC).state ("model") ∧
    computeFieldsResults (runNotebook (geometry2Override libC (.obj ("mesh") 1))).state.trace =
      computeFieldsResults (runNotebook libC).state.trace ∧
    (runNotebook (geometry2Override libC (.obj ("mesh") 1))).state.trace.take 7 =
      (runNotebook libC).state.trace.take 7 ∧
    (runNotebook (geometry2Override libC (.obj ("mesh") 1))).state.trace.get? 8 =
      (runNotebook libC).state.trace.get? 8 ∧
    (runNotebook (geometry2Override libC (.obj ("mesh") 1))).state.trace.get? 9 =
      (runNotebook libC).state.trace.get? 9 ∧
    (runNotebook (geometry2Override libC (.obj ("mesh") 1))).state.trace.drop 13 =
      (runNotebook libC).state.trace.drop 13 :=
  c9_geometry2_noninterference libC (.obj ("mesh") 1) (runNotebook libC).state
    (runNotebook (geometry2Override libC (.obj ("mesh") 1))).state rfl rfl

/-- C8: assuming every external library call returns normally — in
particular `numpy.random.rand` returns an array or a number, as documented —
the notebook's own code never raises: its arithmetic
(`radius = radius_of_curvature / 2` and the affine map `rand * 0.18 - 0.09`)
is total, and the whole sequence of calls executes without error. -/
theorem c8_total_run (lib : Lib)
    (htot : ∀ fn args g, ∃ v, lib fn args g = some v)
    (hrand : ∀ args g v, lib ("numpy.random.rand") args g = some v →
      (∃ rows, v = .arr rows) ∨ (∃ q, v = .num q)) :
    ∃ st, runNotebook lib = .ok st := by
  obtain ⟨vsource, e1⟩ := htot ("optimus.source.create_bowl") [.num 100e3, .num (64e-3 / 2), .num 64e-3, .tup [0, 0, -(64e-3)], .tup [0, 0, 1], .num 0.04] gImported
  obtain ⟨vmatE, e2⟩ := htot ("optimus.material.load_material") [.str ("water")] gImported
  obtain ⟨vmatI, e3⟩ := htot ("optimus.material.load_material") [.str ("bone (cortical)")] gImported
  obtain ⟨vg1, e4⟩ := htot ("optimus.geometry.load.import_grid") [.str ("Data/ribcage4-h-4.msh"), .str ("ribcage4")] gImported
  obtain ⟨vg2, e5⟩ := htot ("optimus.geometry.load.import_grid") [.str ("Data/ribcage3-h-1.msh"), .str ("ribcage3")] gImported
  obtain ⟨vgrids, e6⟩ := htot ("optimus.postprocess.Visualise3DGrid") [.listPair vg1 vg2] gWarn
  obtain ⟨rGrid1, e7⟩ := htot ("create_computational_grid") [vgrids] gWarn
  obtain ⟨rGrid2, e8⟩ := htot ("display_field") [vgrids] gWarn
  obtain ⟨vgeom, e9⟩ := htot ("optimus.utils.mesh.scale_mesh") [vg1, .num 1e-3] gWarn
  obtain ⟨vmodel, e10⟩ := htot ("optimus.model.create_default_model") [vsource, vgeom, vmatE, vmatI] gWarn
  obtain ⟨rSolve, e11⟩ := htot ("solve") [vmodel] gWarn
  obtain ⟨vplane, e12⟩ := htot ("optimus.postprocess.VisualisePlane") [vmodel] gPost
  obtain ⟨rP1, e13⟩ := htot ("create_computational_grid") [vplane, .tup [141, 241], .tup [-(90e-3), 90e-3, -(90e-3), 90e-3], .tup [1, 2]] gPost
  obtain ⟨rP2, e14⟩ := htot ("compute_fields") [vplane] gPost
  obtain ⟨v3d, e15⟩ := htot ("optimus.postprocess.Visualise3DField") [vmodel] gPost
  obtain ⟨r3d1, e16⟩ := htot ("create_computational_grid") [v3d] gPost
  obtain ⟨r3d2, e17⟩ := htot ("add_VisualisePlane") [v3d, vplane] gPost
  obtain ⟨r3d3, e18⟩ := htot ("compute_fields") [v3d] gPost
  obtain ⟨r3d4, e19⟩ := htot ("display_field") [v3d] gPost
  obtain ⟨vrand, e20⟩ := htot ("numpy.random.rand") [.num 3, .num 500] gPost
  have hpts : ∃ vp, (vMulScalar vrand 0.18).bind (fun w => vSubScalar w 0.09) = some vp := by
    rcases hrand _ _ _ e20 with ⟨rows, hv⟩ | ⟨q, hv⟩ <;> subst hv <;> exact ⟨_, rfl⟩
  obtain ⟨vpoints, e21⟩ := hpts
  obtain ⟨vcloud, e22⟩ := htot ("optimus.postprocess.VisualiseCloudPoints") [vmodel] gPost
  obtain ⟨rC1, e23⟩ := htot ("create_computational_grid") [vcloud, vpoints] gPost
  obtain ⟨rC2, e24⟩ := htot ("compute_fields") [vcloud] gPost
  obtain ⟨rC3, e25⟩ := htot ("display_field") [vcloud, .num 0.009] gPost
  exact ⟨_, runNotebook_intro lib vsource vmatE vmatI vg1 vg2 vgrids rGrid1
    rGrid2 vgeom vmodel rSolve vplane rP1 rP2 v3d r3d1 r3d2 r3d3 r3d4 vrand
    vpoints vcloud rC1 rC2 rC3 e1 e2 e3 e4 e5 e6 e7 e8 e9 e10 e11 e12 e13 e14
    e15 e16 e17 e18 e19 e20 e21 e22 e23 e24 e25⟩

/-- Witness for `c8_total_run`: the total library `libC`. -/
theorem c8_total_run_witness : ∃ st, runNotebook libC = .ok st :=
  c8_total_run libC
    (fun fn args g =>
      if hfn : fn = "numpy.random.rand" then ⟨.num 0, by simp [libC, hfn]⟩
      else ⟨.str fn, by simp [libC, hfn]⟩)
    (fun args g v hv => Or.inr ⟨0, (Option.some.inj hv).symm⟩)

/-- C10: if `numpy.random.rand(3, n)` (with `n = 500`) returns a 3 × 500
array with entries in [0, 1), then `pointsarray` is a 3 × 500 array whose
entries lie in the half-open interval [-0.09, 0.09), and exactly this array
is the argument the notebook passes to
`VisualiseCloudPoints.create_computational_grid` (trace position 28). -/
theorem c10_pointsarray (lib : Lib) (st : St) (rows : List (List ℚ))
    (h : runNotebook lib = .ok st)
    (hrand : lib ("numpy.random.rand") [.num 3, .num 500] gPost = some (.arr rows))
    (hshape : rows.length = 3 ∧ ∀ r ∈ rows, r.length = 500)
    (hbound : ∀ r ∈ rows, ∀ x ∈ r, 0 ≤ x ∧ x < 1) :
    ∃ rows2, lookupVar st ("pointsarray") = some (.arr rows2) ∧
      (∃ vcloud rC1, st.trace.get? 28 = some (.call ("create_computational_grid")
        (some ("points")) none [vcloud, .arr rows2] rC1)) ∧
      rows2.length = 3 ∧ (∀ r ∈ rows2, r.length = 500) ∧
      (∀ r ∈ rows2, ∀ x ∈ r, -(9/100) ≤ x ∧ x < 9/100) := by
  rcases runNotebook_ok_elim lib st h with ⟨vsource, vmatE, vmatI, vg1, vg2,
    vgrids, rGrid1, rGrid2, vgeom, vmodel, rSolve, vplane, rP1, rP2, v3d, r3d1,
    r3d2, r3d3, r3d4, vrand, vpoints, vcloud, rC1, rC2, rC3, -, -, -, -, -, -,
    -, -, -, -, -, -, -, -, -, -, -, -, -, e20, e21, -, -, -, -, hst⟩
  subst hst
  have hv : vrand = .arr rows := Option.some.inj (e20.symm.trans hrand)
  subst hv
  have hvp : (.arr ((rows.map (fun r => r.map (fun x => x * 0.18))).map
      (fun r => r.map (fun x => x - 0.09))) : Val) = vpoints := Option.some.inj e21
  subst hvp
  refine ⟨_, rfl, ⟨vcloud, rC1, rfl⟩, ?_, ?_, ?_⟩
  · simp [hshape.1]
  · intro r hr
    rcases List.mem_map.1 hr with ⟨r1, hr1, hr1e⟩
    rcases List.mem_map.1 hr1 with ⟨r0, hr0, hr0e⟩
    subst hr1e
    subst hr0e
    simp [hshape.2 r0 hr0]
  · intro r hr x hx
    rcases List.mem_map.1 hr with ⟨r1, hr1, hr1e⟩
    rcases List.mem_map.1 hr1 with ⟨r0, hr0, hr0e⟩
    subst hr1e
    subst hr0e
    rcases List.mem_map.1 hx with ⟨x1, hx1, hx1e⟩
    rcases List.mem_map.1 hx1 with ⟨y, hy, hye⟩
    subst hx1e
    subst hye
    rcases hbound r0 hr0 y hy with ⟨hy0, hy1⟩
    constructor
    · nlinarith
    · nlinarith

/-- Witness for `c10_pointsarray`, at `libW`. -/
theorem c10_pointsarray_witness :
    ∃ rows2, lookupVar (runNotebook libW).state ("pointsarray") = some (.arr rows2) ∧
      (∃ vcloud rC1, (runNotebook libW).state.trace.get? 28 =
        some (.call ("create_computational_grid")
          (some ("points")) none [vcloud, .arr rows2] rC1)) ∧
      rows2.length = 3 ∧ (∀ r ∈ rows2, r.length = 500) ∧
      (∀ r ∈ rows2, ∀ x ∈ r, -(9/100) ≤ x ∧ x < 9/100) :=
  c10_pointsarray libW (runNotebook libW).state
    (List.replicate 3 (List.replicate 500 (1/2))) rfl rfl
    ⟨by simp, fun r hr => by rw [List.eq_of_mem_replicate hr]; simp⟩
    (fun r hr x hx => by
      rw [List.eq_of_mem_replicate hr] at hx
      rw [List.eq_of_mem_replicate hx]
      norm_num)

/-- C4 as stated is false: not every argument the notebook passes is a
literal — some arguments carry values computed by the notebook's own
arithmetic (e.g. `radius = radius_of_curvature / 2` passed to `create_bowl`,
and `pointsarray` passed to `create_computational_grid`). -/
theorem c4_counterexample :
    ¬ (notebookCallArgs.all
        (fun p => p.2.all (fun a => !(computedIn computedVars a))) = true) := by
  decide

/-- C4 amended: every argument the notebook passes is a literal, a variable
reference, or a tuple/list of such — it never writes arithmetic inline in an
argument position — and the notebook-computed values among the arguments are
exactly the three variables `radius`, `location` and `pointsarray` (computed
by `radius_of_curvature / 2`, the tuple containing `-radius_of_curvature`,
and the affine map of the random array, respectively). -/
theorem c4_argument_classification :
    computedVars = ["radius", "location", "pointsarray"] ∧
    notebookCallArgs.all (fun p => p.2.all isLitOrRef) = true ∧
    notebookCallArgs.foldl
        (fun acc p => acc ++ p.2.filter (computedIn computedVars)) [] =
      [.var ("radius"), .var ("location"), .var ("pointsarray")] := by
  exact ⟨by decide, by decide, by decide⟩

end Optimus
